import Mathlib

/-!
# Verification of the uos-libvirtd-exporter collection engine

Shallow embedding of the Go sources under `src/` (package `collector`),
together with proofs of the specification claims about them.

Modelling conventions:
* Every libvirt API call made by the code is an input read from an oracle
  record (`DomainAPI` for per-domain calls, `ConnAPI` for connection-level
  calls, `World` for the ambient environment of one scrape: wall clock and
  the outcome of a `libvirt.NewConnect` attempt).  A Go call returning
  `(T, error)` becomes `Except LvErr T`.
* Metric emission on the `chan<- prometheus.Metric` channel becomes an
  explicit list of `Metric` records, in emission order.  `log.Printf`
  calls become an explicit list of log strings.  Side effects the claims
  talk about (closing the session, reconnect attempts, backoff sleeps,
  freeing domain handles) become an explicit list of `Event`s.
* Go `float64` metric values are modelled as `Rat`; integer fields keep
  their Go width semantics (`uint64` conversions take `% 2^64`).
-/

/-- Error model for libvirt calls.  The collectors only ever inspect whether
the error code is `VIR_ERR_OPERATION_INVALID`, so the model keeps that
distinction and collapses everything else. -/
inductive LvErr where
  | operationInvalid
  | other
deriving DecidableEq, Repr

/-- Test for a Go call that returned with nil error. -/
def exceptOk {α : Type} : Except LvErr α → Bool
  | .ok _ => true
  | .error _ => false

/-- Test for a Go call that returned a non-nil error. -/
def exceptErr {α : Type} : Except LvErr α → Bool
  | .ok _ => false
  | .error _ => true

/-- Go `uint64(i)` conversion from a signed 64-bit value. -/
def goUint64 (i : Int) : Nat := (i % (2 ^ 64 : Int)).toNat

/-- Constant `libvirt.DOMAIN_RUNNING` (`VIR_DOMAIN_RUNNING = 1`). -/
def DOMAIN_RUNNING : Nat := 1

/-- Embedding of `libvirt.DomainInfo` as read by `domain.GetInfo()`:
state code, memory figures in KiB, vCPU count and CPU time in ns. -/
structure DomainInfo where
  state : Nat
  maxMem : Nat
  memory : Nat
  nrVirtCpu : Nat
  cpuTime : Nat
deriving DecidableEq, Repr

/-- Embedding of `libvirt.DomainBlockStats` (fields used by the code; the `Flags`
variant additionally carries the total-time counters). -/
structure DomainBlockStats where
  rdBytes : Int
  wrBytes : Int
  rdReq : Int
  wrReq : Int
  rdTotalTimes : Int
  wrTotalTimes : Int
deriving DecidableEq, Repr

/-- Embedding of `libvirt.DomainInterfaceStats` (fields used by the code). -/
structure DomainInterfaceStats where
  rxBytes : Int
  txBytes : Int
  rxPackets : Int
  txPackets : Int
  rxErrs : Int
  txErrs : Int
  rxDrop : Int
  txDrop : Int
deriving DecidableEq, Repr

/-- One entry of the slice returned by `domain.MemoryStats`:
a tag (`libvirt.DOMAIN_MEMORY_STAT_*`) and a value in KiB. -/
structure DomainMemoryStat where
  tag : Int
  val : Nat
deriving DecidableEq, Repr

/-- Embedding of `libvirtxml` disk target element (`<target dev=.../>`). -/
structure XMLDiskTarget where
  dev : String
deriving DecidableEq, Repr

/-- Embedding of `libvirtxml` disk element; the target is optional in the schema. -/
structure XMLDisk where
  target : Option XMLDiskTarget
deriving DecidableEq, Repr

/-- Embedding of `libvirtxml` interface target element. -/
structure XMLInterfaceTarget where
  dev : String
deriving DecidableEq, Repr

/-- Embedding of `libvirtxml` interface element. -/
structure XMLInterface where
  target : Option XMLInterfaceTarget
deriving DecidableEq, Repr

/-- Embedding of `libvirtxml` devices section of a domain document. -/
structure XMLDevices where
  disks : List XMLDisk
  interfaces : List XMLInterface
deriving DecidableEq, Repr

/-- Embedding of `libvirtxml.Domain`: the structured hardware descriptor; the devices
section is optional (a nil pointer in Go). -/
structure DomainXML where
  devices : Option XMLDevices
deriving DecidableEq, Repr

/-- Oracle for every per-domain libvirt call the collectors issue.
`unmarshal` models `xml.Unmarshal` into `libvirtxml.Domain` (a fixed
function of the fetched descriptor text, supplied by the environment). -/
structure DomainAPI where
  getInfo : Except LvErr DomainInfo
  getName : Except LvErr String
  getUUIDString : Except LvErr String
  isPersistent : Except LvErr Bool
  hasManagedSaveImage : Except LvErr Bool
  getAutostart : Except LvErr Bool
  getTime : Except LvErr Nat
  getXMLDesc : Except LvErr String
  unmarshal : String → Except LvErr DomainXML
  getMaxVcpus : Except LvErr Nat
  getVcpus : Except LvErr (List Unit)
  memoryStats : Except LvErr (List DomainMemoryStat)
  blockStatsFlags : String → Except LvErr DomainBlockStats
  blockStats : String → Except LvErr DomainBlockStats
  interfaceStats : String → Except LvErr DomainInterfaceStats
  listAllSnapshots : Except LvErr (List Unit)

/-! ## Device and interface discovery (`libvirt_collector.go`) -/

/-- The fixed block-device candidate list of
`fallbackBlockDeviceDiscovery` (`libvirt_collector.go:356`). -/
def commonDevices : List String :=
  ["vda", "vdb", "vdc", "vdd", "vde", "vdf",
   "sda", "sdb", "sdc", "sdd", "sde", "sdf",
   "hda", "hdb", "hdc", "hdd",
   "nvme0n1", "nvme1n1", "nvme2n1",
   "xvda", "xvdb", "xvdc", "xvdd"]

/-- The fixed interface candidate list of
`fallbackNetworkInterfaceDiscovery` (`libvirt_collector.go:427`). -/
def commonInterfaces : List String :=
  ["eth0", "eth1", "eth2", "eth3", "eth4", "eth5",
   "ens3", "ens4", "ens5", "ens6", "ens7", "ens8",
   "enp0s3", "enp0s4", "enp0s5", "enp0s6", "enp0s7", "enp0s8",
   "eno1", "eno2", "eno3", "eno4",
   "vnet0", "vnet1", "vnet2", "vnet3", "vnet4", "vnet5",
   "eth0.1", "eth0.2", "eth1.1", "eth1.2",
   "br0", "br1", "br2", "virbr0", "virbr1",
   "wlan0", "wlan1", "wlp0s3", "wlp0s4"]

/-- The probe a block-device candidate must pass in the fallback loop:
`BlockStatsFlags` succeeds, or failing that `BlockStats` succeeds
(`libvirt_collector.go:370-382`). -/
def blockProbeOk (d : DomainAPI) (device : String) : Bool :=
  exceptOk (d.blockStatsFlags device) || exceptOk (d.blockStats device)

/-- The probe an interface candidate must pass in the fallback loop:
`InterfaceStats` succeeds (`libvirt_collector.go:445-449`). -/
def interfaceProbeOk (d : DomainAPI) (iface : String) : Bool :=
  exceptOk (d.interfaceStats iface)

/-- Embedding of `fallbackBlockDeviceDiscovery` (`libvirt_collector.go:352-385`).
Returns the discovered devices together with the list of candidate names
that were probed by an actual statistics call (in probe order). -/
def fallbackBlockDeviceDiscovery (d : DomainAPI) :
    List String × List String :=
  commonDevices.foldl
    (fun acc device =>
      let probed := acc.2 ++ [device]
      if exceptOk (d.blockStatsFlags device) then (acc.1 ++ [device], probed)
      else if exceptOk (d.blockStats device) then (acc.1 ++ [device], probed)
      else (acc.1, probed))
    ([], [])

/-- Embedding of `fallbackNetworkInterfaceDiscovery` (`libvirt_collector.go:423-453`),
with the probe log as second component. -/
def fallbackNetworkInterfaceDiscovery (d : DomainAPI) :
    List String × List String :=
  commonInterfaces.foldl
    (fun acc iface =>
      let probed := acc.2 ++ [iface]
      if exceptOk (d.interfaceStats iface) then (acc.1 ++ [iface], probed)
      else (acc.1, probed))
    ([], [])

/-- The disk target names explicitly declared in a parsed descriptor
(`libvirt_collector.go:335-341`): disks with a non-nil target and a
non-empty `dev`. -/
def declaredBlockDevices (dx : DomainXML) : List String :=
  match dx.devices with
  | none => []
  | some devs =>
    devs.disks.filterMap fun disk =>
      match disk.target with
      | some t => if t.dev ≠ "" then some t.dev else none
      | none => none

/-- The interface target names explicitly declared in a parsed descriptor
(`libvirt_collector.go:406-412`). -/
def declaredInterfaces (dx : DomainXML) : List String :=
  match dx.devices with
  | none => []
  | some devs =>
    devs.interfaces.filterMap fun iface =>
      match iface.target with
      | some t => if t.dev ≠ "" then some t.dev else none
      | none => none

/-- Embedding of `discoverBlockDevices` (`libvirt_collector.go:317-349`): fetch the
descriptor, parse it, extract declared targets; fall back to probing on
fetch failure, parse failure, or zero extracted names.  Second component
is the probe log (empty on the authoritative path). -/
def discoverBlockDevices (d : DomainAPI) : List String × List String :=
  match d.getXMLDesc with
  | .error _ => fallbackBlockDeviceDiscovery d
  | .ok xmlDesc =>
    match d.unmarshal xmlDesc with
    | .error _ => fallbackBlockDeviceDiscovery d
    | .ok domainXML =>
      let devices := declaredBlockDevices domainXML
      if devices = [] then fallbackBlockDeviceDiscovery d
      else (devices, [])

/-- Embedding of `discoverNetworkInterfaces` (`libvirt_collector.go:388-420`). -/
def discoverNetworkInterfaces (d : DomainAPI) : List String × List String :=
  match d.getXMLDesc with
  | .error _ => fallbackNetworkInterfaceDiscovery d
  | .ok xmlDesc =>
    match d.unmarshal xmlDesc with
    | .error _ => fallbackNetworkInterfaceDiscovery d
    | .ok domainXML =>
      let interfaces := declaredInterfaces domainXML
      if interfaces = [] then fallbackNetworkInterfaceDiscovery d
      else (interfaces, [])

/-! ## Metric records and raw metric structures -/

/-- Prometheus metric kind, as in `prometheus.CounterValue` /
`prometheus.GaugeValue`. -/
inductive MetricKind where
  | counter
  | gauge
deriving DecidableEq, Repr

/-- One record sent on the `chan<- prometheus.Metric` channel:
metric name, kind, numeric value and the label values in declaration
order. -/
structure Metric where
  name : String
  kind : MetricKind
  value : Rat
  labels : List String
deriving DecidableEq, Repr

/-- Embedding of `DomainInfoMetrics` (`part_008`, as populated by
`CollectDomainInfo` in `libvirt_collector.go:21-87`). -/
structure DomainInfoMetrics where
  name : String
  uuid : String
  status : Rat
  cpuTime : Rat
  uptime : Rat
  hasUptime : Bool
  memoryCurrent : Rat
  memoryMax : Rat
  autostart : Bool
  persistent : Bool
  managedSave : Bool
  bootTime : Int
deriving DecidableEq, Repr

/-- Embedding of `CPUStatsMetrics` (`part_008:579`; descriptor-only fields that no
collector reads are omitted). -/
structure CPUStatsMetrics where
  name : String
  uuid : String
  vcpusMax : Nat
  vcpusCurrent : Nat
  cpuTime : Nat
  userTime : Nat
  systemTime : Nat
  stealTime : Nat
deriving DecidableEq, Repr

/-- Embedding of `MemoryStatsMetrics` (`part_008:595`), all figures in KiB. -/
structure MemoryStatsMetrics where
  name : String
  uuid : String
  balloonSize : Nat
  unused : Nat
  available : Nat
  rss : Nat
  swapIn : Nat
  swapOut : Nat
  majorFaults : Nat
  minorFaults : Nat
  total : Nat
deriving DecidableEq, Repr

/-- Embedding of `DiskMetrics` (`part_008:619`, fields set by `CollectDiskStats`). -/
structure DiskMetrics where
  name : String
  uuid : String
  device : String
  path : String
  readBytes : Nat
  writeBytes : Nat
  readOps : Nat
  writeOps : Nat
  readTimeNs : Nat
  writeTimeNs : Nat
deriving DecidableEq, Repr

/-- Embedding of `NetworkMetrics` (`part_008:647`, fields set by
`CollectNetworkStats`). -/
structure NetworkMetrics where
  name : String
  uuid : String
  interface : String
  rxBytes : Nat
  txBytes : Nat
  rxPackets : Nat
  txPackets : Nat
  rxErrors : Nat
  txErrors : Nat
  rxDrops : Nat
  txDrops : Nat
deriving DecidableEq, Repr

/-- Embedding of `DeviceMetrics` (`part_008:667`, fields set by
`CollectDeviceStats`). -/
structure DeviceMetrics where
  name : String
  uuid : String
  hasTPM : Bool
  hasRNG : Bool
deriving DecidableEq, Repr

/-- Embedding of `SnapshotMetrics` (`part_008:712`). -/
structure SnapshotMetrics where
  name : String
  uuid : String
  count : Nat
deriving DecidableEq, Repr

/-! ## Raw metric collection (`LibvirtMetricsCollector`, `libvirt_collector.go`) -/

/-- Embedding of `CollectDomainInfo` (`libvirt_collector.go:21-87`).  `now` is the
wall clock (unix seconds) read by `time.Since`; the code treats the value
returned by `domain.GetTime` as milliseconds and divides by 1000. -/
def CollectDomainInfo (now : Int) (d : DomainAPI) :
    Except LvErr DomainInfoMetrics := do
  let domainInfo ← d.getInfo
  let domainName ← d.getName
  let domainUUID ← d.getUUIDString
  let persistent ← d.isPersistent
  let managedSave ← d.hasManagedSaveImage
  let autostart ← d.getAutostart
  let base : DomainInfoMetrics :=
    { name := domainName
      uuid := domainUUID
      memoryCurrent := (domainInfo.memory : Rat) * 1024
      memoryMax := (domainInfo.maxMem : Rat) * 1024
      cpuTime := (domainInfo.cpuTime : Rat) / 1000000000
      autostart := autostart
      persistent := persistent
      managedSave := managedSave
      status := if domainInfo.state = DOMAIN_RUNNING then 1 else 0
      uptime := 0
      hasUptime := false
      bootTime := 0 }
  if domainInfo.state = DOMAIN_RUNNING then
    match d.getTime with
    | .ok domainTime =>
      let bootTime : Int := (domainTime / 1000 : Nat)
      return { base with
                 bootTime := bootTime
                 uptime := (now : Rat) - (bootTime : Rat)
                 hasUptime := true }
    | .error _ => return base
  else
    return base

/-- Embedding of `CollectCPUStats` (`libvirt_collector.go:90-131`).  The struct
literal leaves `UserTime`, `SystemTime` and `StealTime` at their Go zero
value; a `GetVcpus` failure falls back to an empty slice. -/
def CollectCPUStats (d : DomainAPI) : Except LvErr CPUStatsMetrics := do
  let domainName ← d.getName
  let domainUUID ← d.getUUIDString
  let domainInfo ← d.getInfo
  let maxVCPUs ← d.getMaxVcpus
  let vcpuInfo := match d.getVcpus with
    | .ok info => info
    | .error _ => []
  return { name := domainName
           uuid := domainUUID
           vcpusMax := maxVCPUs
           vcpusCurrent := vcpuInfo.length
           cpuTime := domainInfo.cpuTime
           userTime := 0
           systemTime := 0
           stealTime := 0 }

/-- Tag values of `libvirt.DOMAIN_MEMORY_STAT_*`. -/
def DOMAIN_MEMORY_STAT_SWAP_IN : Int := 0
def DOMAIN_MEMORY_STAT_SWAP_OUT : Int := 1
def DOMAIN_MEMORY_STAT_MAJOR_FAULT : Int := 2
def DOMAIN_MEMORY_STAT_MINOR_FAULT : Int := 3
def DOMAIN_MEMORY_STAT_UNUSED : Int := 4
def DOMAIN_MEMORY_STAT_AVAILABLE : Int := 5
def DOMAIN_MEMORY_STAT_ACTUAL_BALLOON : Int := 6
def DOMAIN_MEMORY_STAT_RSS : Int := 7

/-- One iteration of the tag switch in `CollectMemoryStats`
(`libvirt_collector.go:160-179`). -/
def applyMemoryStat (m : MemoryStatsMetrics) (s : DomainMemoryStat) :
    MemoryStatsMetrics :=
  if s.tag = DOMAIN_MEMORY_STAT_ACTUAL_BALLOON then { m with balloonSize := s.val }
  else if s.tag = DOMAIN_MEMORY_STAT_UNUSED then { m with unused := s.val }
  else if s.tag = DOMAIN_MEMORY_STAT_AVAILABLE then { m with available := s.val }
  else if s.tag = DOMAIN_MEMORY_STAT_RSS then { m with rss := s.val }
  else if s.tag = DOMAIN_MEMORY_STAT_SWAP_IN then { m with swapIn := s.val }
  else if s.tag = DOMAIN_MEMORY_STAT_SWAP_OUT then { m with swapOut := s.val }
  else if s.tag = DOMAIN_MEMORY_STAT_MAJOR_FAULT then { m with majorFaults := s.val }
  else if s.tag = DOMAIN_MEMORY_STAT_MINOR_FAULT then { m with minorFaults := s.val }
  else m

/-- Embedding of `CollectMemoryStats` (`libvirt_collector.go:134-187`). -/
def CollectMemoryStats (d : DomainAPI) : Except LvErr MemoryStatsMetrics := do
  let domainName ← d.getName
  let domainUUID ← d.getUUIDString
  let memStats ← d.memoryStats
  let base : MemoryStatsMetrics :=
    { name := domainName, uuid := domainUUID
      balloonSize := 0, unused := 0, available := 0, rss := 0
      swapIn := 0, swapOut := 0, majorFaults := 0, minorFaults := 0
      total := 0 }
  let metrics := memStats.foldl applyMemoryStat base
  let metrics :=
    if metrics.available > 0 ∧ metrics.unused > 0 then
      { metrics with total := metrics.available }
    else metrics
  return metrics

/-- Embedding of `CollectDiskStats` (`libvirt_collector.go:190-258`): running gate,
dynamic device discovery, then one stats call per device with a basic
fallback; a device whose both probes fail is skipped. -/
def CollectDiskStats (d : DomainAPI) : Except LvErr (List DiskMetrics) := do
  let domainInfo ← d.getInfo
  if domainInfo.state ≠ DOMAIN_RUNNING then
    return []
  let domainName ← d.getName
  let domainUUID ← d.getUUIDString
  let devices := (discoverBlockDevices d).1
  let metrics := devices.foldl
    (fun metrics device =>
      match d.blockStatsFlags device with
      | .error _ =>
        match d.blockStats device with
        | .error _ => metrics
        | .ok basicStats =>
          metrics ++
            [{ name := domainName, uuid := domainUUID, device := device
               path := "/dev/" ++ device
               readBytes := goUint64 basicStats.rdBytes
               writeBytes := goUint64 basicStats.wrBytes
               readOps := goUint64 basicStats.rdReq
               writeOps := goUint64 basicStats.wrReq
               readTimeNs := 0, writeTimeNs := 0 }]
      | .ok stats =>
        metrics ++
          [{ name := domainName, uuid := domainUUID, device := device
             path := "/dev/" ++ device
             readBytes := goUint64 stats.rdBytes
             writeBytes := goUint64 stats.wrBytes
             readOps := goUint64 stats.rdReq
             writeOps := goUint64 stats.wrReq
             readTimeNs := goUint64 stats.rdTotalTimes
             writeTimeNs := goUint64 stats.wrTotalTimes }])
    []
  return metrics

/-- Embedding of `CollectNetworkStats` (`libvirt_collector.go:261-314`). -/
def CollectNetworkStats (d : DomainAPI) : Except LvErr (List NetworkMetrics) := do
  let domainInfo ← d.getInfo
  if domainInfo.state ≠ DOMAIN_RUNNING then
    return []
  let domainName ← d.getName
  let domainUUID ← d.getUUIDString
  let interfaces := (discoverNetworkInterfaces d).1
  let metrics := interfaces.foldl
    (fun metrics ifaceName =>
      match d.interfaceStats ifaceName with
      | .error _ => metrics
      | .ok stats =>
        metrics ++
          [{ name := domainName, uuid := domainUUID, interface := ifaceName
             rxBytes := goUint64 stats.rxBytes
             txBytes := goUint64 stats.txBytes
             rxPackets := goUint64 stats.rxPackets
             txPackets := goUint64 stats.txPackets
             rxErrors := goUint64 stats.rxErrs
             txErrors := goUint64 stats.txErrs
             rxDrops := goUint64 stats.rxDrop
             txDrops := goUint64 stats.txDrop }])
    []
  return metrics

/-- Embedding of `CollectDeviceStats` (`libvirt_collector.go:456-486`): on a
successful descriptor fetch the code only re-assigns the TPM/RNG flags
to `false`; they are never set to anything else. -/
def CollectDeviceStats (d : DomainAPI) : Except LvErr DeviceMetrics := do
  let domainName ← d.getName
  let domainUUID ← d.getUUIDString
  let _ := d.getXMLDesc
  return { name := domainName, uuid := domainUUID
           hasTPM := false, hasRNG := false }

/-- Embedding of `CollectSnapshotStats` (`libvirt_collector.go:527-559`). -/
def CollectSnapshotStats (d : DomainAPI) : Except LvErr SnapshotMetrics := do
  let domainName ← d.getName
  let domainUUID ← d.getUUIDString
  let snapshots ← d.listAllSnapshots
  return { name := domainName, uuid := domainUUID, count := snapshots.length }

/-! ## Per-category collectors (emission level) -/

/-- Embedding of `DomainInfoCollector.Collect` (`domain_info_collector.go:67-88`), the
basic identity/state collector variant: status, CPU time, memory gauges
and — only when `HasUptime` — the uptime gauge. -/
def DomainInfoCollectorCollect (now : Int) (d : DomainAPI) :
    List Metric × List String :=
  match CollectDomainInfo now d with
  | .error _ => ([], ["Failed to collect domain info metrics"])
  | .ok m =>
    ([{ name := "libvirt_vm_status", kind := .gauge
        value := m.status, labels := [m.name, m.uuid] },
      { name := "libvirt_vm_cpu_time_seconds_total", kind := .counter
        value := m.cpuTime, labels := [m.name, m.uuid] },
      { name := "libvirt_vm_memory_current_bytes", kind := .gauge
        value := m.memoryCurrent, labels := [m.name, m.uuid] },
      { name := "libvirt_vm_memory_max_bytes", kind := .gauge
        value := m.memoryMax, labels := [m.name, m.uuid] }] ++
     (if m.hasUptime then
        [{ name := "libvirt_vm_uptime_seconds", kind := .gauge
           value := m.uptime, labels := [m.name, m.uuid] }]
      else []),
     [])

/-- Embedding of `DomainInfoCollector.Collect`, full variant
(`memory_collector.go:293-388`): additionally emits the autostart,
persistent and managed-save flags. -/
def DomainInfoCollectorFullCollect (now : Int) (d : DomainAPI) :
    List Metric × List String :=
  match CollectDomainInfo now d with
  | .error _ => ([], ["Failed to collect domain info metrics"])
  | .ok m =>
    ([{ name := "libvirt_vm_status", kind := .gauge
        value := m.status, labels := [m.name, m.uuid] },
      { name := "libvirt_vm_cpu_time_seconds_total", kind := .counter
        value := m.cpuTime, labels := [m.name, m.uuid] },
      { name := "libvirt_vm_memory_current_bytes", kind := .gauge
        value := m.memoryCurrent, labels := [m.name, m.uuid] },
      { name := "libvirt_vm_memory_max_bytes", kind := .gauge
        value := m.memoryMax, labels := [m.name, m.uuid] },
      { name := "libvirt_vm_autostart_enabled", kind := .gauge
        value := if m.autostart then 1 else 0, labels := [m.name, m.uuid] },
      { name := "libvirt_vm_persistent", kind := .gauge
        value := if m.persistent then 1 else 0, labels := [m.name, m.uuid] },
      { name := "libvirt_vm_managed_save", kind := .gauge
        value := if m.managedSave then 1 else 0, labels := [m.name, m.uuid] }] ++
     (if m.hasUptime then
        [{ name := "libvirt_vm_uptime_seconds", kind := .gauge
           value := m.uptime, labels := [m.name, m.uuid] }]
      else []),
     [])

/-- Embedding of `CPUCollector.Describe` (`disk_collector.go:137-144`): the metric
names the CPU collector advertises. -/
def CPUCollectorDescribe : List String :=
  ["libvirt_vm_vcpu_max",
   "libvirt_vm_vcpu_current",
   "libvirt_vm_cpu_time_total_nanoseconds",
   "libvirt_vm_cpu_user_time_nanoseconds",
   "libvirt_vm_cpu_system_time_nanoseconds",
   "libvirt_vm_cpu_steal_time_nanoseconds"]

/-- Embedding of `CPUCollector.Collect` (`disk_collector.go:147-232`): running gate,
`ERR_OPERATION_INVALID` swallowed silently, extended metrics only emitted
when strictly positive. -/
def CPUCollectorCollect (d : DomainAPI) : List Metric × List String :=
  match d.getInfo with
  | .error _ => ([], ["Warning: Failed to get domain info for CPU metrics"])
  | .ok domainInfo =>
    if domainInfo.state ≠ DOMAIN_RUNNING then ([], [])
    else
      match CollectCPUStats d with
      | .error e =>
        if e = .operationInvalid then ([], [])
        else ([], ["Warning: Failed to collect CPU metrics for domain"])
      | .ok m =>
        ([{ name := "libvirt_vm_vcpu_max", kind := .gauge
            value := m.vcpusMax, labels := [m.name, m.uuid] },
          { name := "libvirt_vm_vcpu_current", kind := .gauge
            value := m.vcpusCurrent, labels := [m.name, m.uuid] },
          { name := "libvirt_vm_cpu_time_total_nanoseconds", kind := .counter
            value := m.cpuTime, labels := [m.name, m.uuid] }] ++
         (if m.userTime > 0 then
            [{ name := "libvirt_vm_cpu_user_time_nanoseconds", kind := .counter
               value := m.userTime, labels := [m.name, m.uuid] }]
          else []) ++
         (if m.systemTime > 0 then
            [{ name := "libvirt_vm_cpu_system_time_nanoseconds", kind := .counter
               value := m.systemTime, labels := [m.name, m.uuid] }]
          else []) ++
         (if m.stealTime > 0 then
            [{ name := "libvirt_vm_cpu_steal_time_nanoseconds", kind := .counter
               value := m.stealTime, labels := [m.name, m.uuid] }]
          else []),
         [])

/-- Embedding of `MemoryCollector.Collect` (`memory_collector.go:99-202`): running gate,
`ERR_OPERATION_INVALID` swallowed, KiB figures scaled to bytes. -/
def MemoryCollectorCollect (d : DomainAPI) : List Metric × List String :=
  match d.getInfo with
  | .error _ => ([], ["Warning: Failed to get domain info for memory metrics"])
  | .ok domainInfo =>
    if domainInfo.state ≠ DOMAIN_RUNNING then ([], [])
    else
      match CollectMemoryStats d with
      | .error e =>
        if e = .operationInvalid then ([], [])
        else ([], ["Warning: Failed to collect memory metrics for domain"])
      | .ok m =>
        ([{ name := "libvirt_vm_memory_balloon_bytes", kind := .gauge
            value := m.balloonSize * 1024, labels := [m.name, m.uuid] },
          { name := "libvirt_vm_memory_unused_bytes", kind := .gauge
            value := m.unused * 1024, labels := [m.name, m.uuid] },
          { name := "libvirt_vm_memory_available_bytes", kind := .gauge
            value := m.available * 1024, labels := [m.name, m.uuid] },
          { name := "libvirt_vm_memory_rss_bytes", kind := .gauge
            value := m.rss * 1024, labels := [m.name, m.uuid] },
          { name := "libvirt_vm_memory_swap_in_bytes", kind := .counter
            value := m.swapIn * 1024, labels := [m.name, m.uuid] },
          { name := "libvirt_vm_memory_swap_out_bytes", kind := .counter
            value := m.swapOut * 1024, labels := [m.name, m.uuid] },
          { name := "libvirt_vm_memory_major_faults_total", kind := .counter
            value := m.majorFaults, labels := [m.name, m.uuid] },
          { name := "libvirt_vm_memory_minor_faults_total", kind := .counter
            value := m.minorFaults, labels := [m.name, m.uuid] },
          { name := "libvirt_vm_memory_total_bytes", kind := .gauge
            value := m.total * 1024, labels := [m.name, m.uuid] }],
         [])

/-- Embedding of `DiskCollector.Collect` (`disk_collector.go:59-72`): four counters per
collected disk entry. -/
def DiskCollectorCollect (d : DomainAPI) : List Metric × List String :=
  match CollectDiskStats d with
  | .error _ => ([], ["Failed to collect disk metrics"])
  | .ok metricsList =>
    (metricsList.foldl
      (fun acc m =>
        acc ++
        [{ name := "libvirt_vm_disk_read_bytes_total", kind := .counter
           value := m.readBytes, labels := [m.name, m.uuid, m.device] },
         { name := "libvirt_vm_disk_write_bytes_total", kind := .counter
           value := m.writeBytes, labels := [m.name, m.uuid, m.device] },
         { name := "libvirt_vm_disk_read_ops_total", kind := .counter
           value := m.readOps, labels := [m.name, m.uuid, m.device] },
         { name := "libvirt_vm_disk_write_ops_total", kind := .counter
           value := m.writeOps, labels := [m.name, m.uuid, m.device] }])
      [],
     [])

/-- Embedding of `NetworkCollector.Collect` (`network_collector.go:91-195`): running
gate, `ERR_OPERATION_INVALID` swallowed, eight counters per interface. -/
def NetworkCollectorCollect (d : DomainAPI) : List Metric × List String :=
  match d.getInfo with
  | .error _ => ([], ["Warning: Failed to get domain info for network metrics"])
  | .ok domainInfo =>
    if domainInfo.state ≠ DOMAIN_RUNNING then ([], [])
    else
      match CollectNetworkStats d with
      | .error e =>
        if e = .operationInvalid then ([], [])
        else ([], ["Warning: Failed to collect network metrics for domain"])
      | .ok metricsList =>
        (metricsList.foldl
          (fun acc m =>
            acc ++
            [{ name := "libvirt_vm_network_rx_bytes_total", kind := .counter
               value := m.rxBytes, labels := [m.name, m.uuid, m.interface] },
             { name := "libvirt_vm_network_tx_bytes_total", kind := .counter
               value := m.txBytes, labels := [m.name, m.uuid, m.interface] },
             { name := "libvirt_vm_network_rx_packets_total", kind := .counter
               value := m.rxPackets, labels := [m.name, m.uuid, m.interface] },
             { name := "libvirt_vm_network_tx_packets_total", kind := .counter
               value := m.txPackets, labels := [m.name, m.uuid, m.interface] },
             { name := "libvirt_vm_network_rx_errors_total", kind := .counter
               value := m.rxErrors, labels := [m.name, m.uuid, m.interface] },
             { name := "libvirt_vm_network_tx_errors_total", kind := .counter
               value := m.txErrors, labels := [m.name, m.uuid, m.interface] },
             { name := "libvirt_vm_network_rx_dropped_total", kind := .counter
               value := m.rxDrops, labels := [m.name, m.uuid, m.interface] },
             { name := "libvirt_vm_network_tx_dropped_total", kind := .counter
               value := m.txDrops, labels := [m.name, m.uuid, m.interface] }])
          [],
         [])

/-- Embedding of `DeviceCollector.Collect` (`part_007:51-101`): device presence flags
and snapshot count, each sub-collection logged independently. -/
def DeviceCollectorCollect (d : DomainAPI) : List Metric × List String :=
  let (deviceMetrics, deviceLogs) : List Metric × List String :=
    match CollectDeviceStats d with
    | .error _ => ([], ["Failed to collect device metrics"])
    | .ok dm =>
      ([{ name := "libvirt_vm_has_tpm", kind := .gauge
          value := if dm.hasTPM then 1 else 0, labels := [dm.name, dm.uuid] },
        { name := "libvirt_vm_has_rng", kind := .gauge
          value := if dm.hasRNG then 1 else 0, labels := [dm.name, dm.uuid] }],
       [])
  let (snapshotMetrics, snapshotLogs) : List Metric × List String :=
    match CollectSnapshotStats d with
    | .error _ => ([], ["Failed to collect snapshot metrics"])
    | .ok sm =>
      ([{ name := "libvirt_vm_snapshot_count", kind := .gauge
          value := sm.count, labels := [sm.name, sm.uuid] }],
       [])
  (deviceMetrics ++ snapshotMetrics, deviceLogs ++ snapshotLogs)

/-! ## Connection-level model -/

/-- Embedding of `StoragePoolMetrics` (`part_008:739`). -/
structure StoragePoolMetrics where
  name : String
  type : String
  state : String
  capacity : Nat
  allocation : Nat
  available : Nat
  volumes : Nat
deriving DecidableEq, Repr

/-- Embedding of `NetworkPoolMetrics` (`part_008:750`). -/
structure NetworkPoolMetrics where
  name : String
  active : Bool
  bridge : String
deriving DecidableEq, Repr

/-- Embedding of `HostInterfaceMetrics` (`part_008:757`). -/
structure HostInterfaceMetrics where
  name : String
  rxBytes : Nat
  txBytes : Nat
  rxPackets : Nat
  txPackets : Nat
deriving DecidableEq, Repr

/-- Embedding of `ConnectionMetrics` (`part_008:721`), the struct consumed by
`connection_collector.go`. -/
structure ConnectionMetrics where
  hostname : String
  libvirtVersion : Nat
  hypervisorVersion : Nat
  driverType : String
  isAlive : Bool
  activeDomains : Nat
  definedDomains : Nat
  freeMemoryBytes : Nat
  totalMemoryBytes : Nat
  totalCPUs : Nat
  hostCPUUsagePercent : Rat
  storagePools : List StoragePoolMetrics
  networks : List NetworkPoolMetrics
  interfaces : List HostInterfaceMetrics
deriving DecidableEq, Repr

/-- Oracle for the connection-level libvirt calls.  `listAllDomains`
yields the per-domain oracles of the enumerated domain handles. -/
structure ConnAPI where
  isAlive : Except LvErr Bool
  listAllDomains : Except LvErr (List DomainAPI)
  getURI : Except LvErr String
  getCapabilities : Except LvErr String
  listDomains : Except LvErr (List Nat)
  listDefinedDomains : Except LvErr (List String)

/-- Embedding of `CollectConnectionStats` (`libvirt_collector.go:562-604`): every
sub-call falls back to a default, so the function always returns with a
nil error.  The historical variants disagree on the struct shape (the
implementation's literal names `URI`/`Capabilities`/`ActiveDomainCount`/
`InactiveDomainCount`, the consumer in `connection_collector.go` reads
the `part_008` fields): the calls and fallbacks are embedded as
implemented, their results mapped onto the `part_008` struct, and the
fields no call populates keep their Go zero value. -/
def CollectConnectionStats (conn : ConnAPI) : Except LvErr ConnectionMetrics :=
  let _uri : String := match conn.getURI with
    | .ok u => u
    | .error _ => "unknown"
  let isAlive : Bool := match conn.isAlive with
    | .ok b => b
    | .error _ => false
  let _capabilities : String := match conn.getCapabilities with
    | .ok c => c
    | .error _ => ""
  let activeDomains : List Nat := match conn.listDomains with
    | .ok l => l
    | .error _ => []
  let inactiveDomains : List String := match conn.listDefinedDomains with
    | .ok l => l
    | .error _ => []
  .ok { hostname := "", libvirtVersion := 0, hypervisorVersion := 0
        driverType := "", isAlive := isAlive
        activeDomains := activeDomains.length
        definedDomains := inactiveDomains.length
        freeMemoryBytes := 0, totalMemoryBytes := 0, totalCPUs := 0
        hostCPUUsagePercent := 0
        storagePools := [], networks := [], interfaces := [] }

/-- Embedding of `collectConnectionMetrics` (`connection_collector.go:257-316`). -/
def collectConnectionMetricsInner (conn : ConnAPI) :
    List Metric × List String :=
  match CollectConnectionStats conn with
  | .error _ => ([], ["Warning: Failed to collect connection metrics"])
  | .ok m =>
    ([{ name := "libvirt_connection_alive", kind := .gauge
        value := if m.isAlive then 1 else 0, labels := [] },
      { name := "libvirt_active_domains", kind := .gauge
        value := m.activeDomains, labels := [] },
      { name := "libvirt_inactive_domains", kind := .gauge
        value := ((m.definedDomains : Int) - (m.activeDomains : Int) : Int)
        labels := [] },
      { name := "libvirt_host_name", kind := .gauge
        value := 1, labels := [m.hostname] },
      { name := "libvirt_host_libvirt_version", kind := .gauge
        value := m.libvirtVersion, labels := [] },
      { name := "libvirt_host_hypervisor_version", kind := .gauge
        value := m.hypervisorVersion, labels := [] },
      { name := "libvirt_host_driver_type", kind := .gauge
        value := 1, labels := [m.driverType] }],
     [])

/-- Embedding of `collectHostMetrics` (`connection_collector.go:319-353`). -/
def collectHostMetricsInner (conn : ConnAPI) : List Metric × List String :=
  match CollectConnectionStats conn with
  | .error _ => ([], ["Warning: Failed to collect host metrics"])
  | .ok m =>
    ([{ name := "libvirt_host_cpu_count", kind := .gauge
        value := m.totalCPUs, labels := [] },
      { name := "libvirt_host_cpu_usage_percent", kind := .gauge
        value := m.hostCPUUsagePercent, labels := [] },
      { name := "libvirt_host_memory_total_bytes", kind := .gauge
        value := m.totalMemoryBytes, labels := [] },
      { name := "libvirt_host_memory_free_bytes", kind := .gauge
        value := m.freeMemoryBytes, labels := [] }],
     [])

/-- Embedding of `collectStoragePoolMetrics` (`connection_collector.go:356-402`). -/
def collectStoragePoolMetricsInner (conn : ConnAPI) :
    List Metric × List String :=
  match CollectConnectionStats conn with
  | .error _ => ([], ["Warning: Failed to collect storage pool metrics"])
  | .ok m =>
    (m.storagePools.foldl
      (fun acc pool =>
        acc ++
        [{ name := "libvirt_storage_pool_info", kind := .gauge
           value := 1, labels := [pool.name, pool.type, pool.state] },
         { name := "libvirt_storage_pool_capacity_bytes", kind := .gauge
           value := pool.capacity, labels := [pool.name] },
         { name := "libvirt_storage_pool_allocation_bytes", kind := .gauge
           value := pool.allocation, labels := [pool.name] },
         { name := "libvirt_storage_pool_available_bytes", kind := .gauge
           value := pool.available, labels := [pool.name] },
         { name := "libvirt_storage_pool_volumes", kind := .gauge
           value := pool.volumes, labels := [pool.name] }])
      [],
     [])

/-- Embedding of `collectNetworkPoolMetrics` (`connection_collector.go:405-435`). -/
def collectNetworkPoolMetricsInner (conn : ConnAPI) :
    List Metric × List String :=
  match CollectConnectionStats conn with
  | .error _ => ([], ["Warning: Failed to collect network pool metrics"])
  | .ok m =>
    (m.networks.foldl
      (fun acc network =>
        acc ++
        [{ name := "libvirt_network_pool_info", kind := .gauge
           value := 1, labels := [network.name, network.bridge] },
         { name := "libvirt_network_pool_bridge", kind := .gauge
           value := if network.active then 1 else 0
           labels := [network.name, network.bridge] }])
      [],
     [])

/-- Embedding of `collectHostInterfaceMetrics` (`connection_collector.go:438-477`). -/
def collectHostInterfaceMetricsInner (conn : ConnAPI) :
    List Metric × List String :=
  match CollectConnectionStats conn with
  | .error _ => ([], ["Warning: Failed to collect host interface metrics"])
  | .ok m =>
    (m.interfaces.foldl
      (fun acc iface =>
        acc ++
        [{ name := "libvirt_host_interface_rx_bytes", kind := .counter
           value := iface.rxBytes, labels := [iface.name] },
         { name := "libvirt_host_interface_tx_bytes", kind := .counter
           value := iface.txBytes, labels := [iface.name] },
         { name := "libvirt_host_interface_rx_packets", kind := .counter
           value := iface.rxPackets, labels := [iface.name] },
         { name := "libvirt_host_interface_tx_packets", kind := .counter
           value := iface.txPackets, labels := [iface.name] }])
      [],
     [])

/-- Embedding of `ConnectionCollector.Collect` (`connection_collector.go:241-254`):
the compare-and-swap on the `collected` flag guards the five host-level
sub-collections; the scrape is serialized under the orchestrator mutex,
so the CAS is the test-and-set on the flag. -/
def ConnectionCollectorCollect (conn : ConnAPI) (collected : Bool) :
    Bool × List Metric × List String :=
  if collected then (collected, [], [])
  else
    let (m1, l1) := collectConnectionMetricsInner conn
    let (m2, l2) := collectHostMetricsInner conn
    let (m3, l3) := collectStoragePoolMetricsInner conn
    let (m4, l4) := collectNetworkPoolMetricsInner conn
    let (m5, l5) := collectHostInterfaceMetricsInner conn
    (true, m1 ++ m2 ++ m3 ++ m4 ++ m5, l1 ++ l2 ++ l3 ++ l4 ++ l5)

/-! ## Self-monitoring collector (`exporter_collector.go`) -/

/-- Mutable state of `ExporterCollector`: the per-scrape `collected` flag
and the process-lifetime counters. -/
structure ExporterState where
  collected : Bool
  lastScrape : Int
  scrapeErrorsTotal : Nat
  cacheHits : Nat
  cacheMisses : Nat
  domainsFound : Nat
deriving DecidableEq, Repr

/-- Ambient environment of one scrape: outcome of a
`libvirt.NewConnect(uri)` attempt, the wall clock, and the observed
scrape-duration sample (`time.Since`). -/
structure World where
  newConnect : Except LvErr ConnAPI
  now : Int
  elapsed : Rat

/-- Embedding of `collectExporterMetrics` (`exporter_collector.go:126-219`): emits the
nine self-monitoring records and then updates `lastScrape`. -/
def collectExporterMetrics (w : World) (conn : ConnAPI)
    (st : ExporterState) : ExporterState × List Metric :=
  let alive : Bool := match conn.isAlive with
    | .ok b => b
    | .error _ => false
  let upValue : Rat := if alive then 1 else 0
  let ms : List Metric :=
    [{ name := "libvirt_exporter_up", kind := .gauge
       value := upValue, labels := [] },
     { name := "libvirt_exporter_last_scrape_timestamp_seconds", kind := .gauge
       value := st.lastScrape, labels := [] },
     { name := "libvirt_exporter_scrape_duration_seconds", kind := .gauge
       value := w.elapsed, labels := [] },
     { name := "libvirt_exporter_scrape_errors_total", kind := .counter
       value := st.scrapeErrorsTotal, labels := [] },
     { name := "libvirt_exporter_domains_discovered", kind := .gauge
       value := st.domainsFound, labels := [] },
     { name := "libvirt_exporter_cache_hits_total", kind := .counter
       value := st.cacheHits, labels := [] },
     { name := "libvirt_exporter_cache_misses_total", kind := .counter
       value := st.cacheMisses, labels := [] },
     { name := "libvirt_exporter_build_version", kind := .gauge
       value := 1, labels := ["unknown"] },
     { name := "libvirt_exporter_build_commit", kind := .gauge
       value := 1, labels := ["unknown"] }]
  ({ st with lastScrape := w.now }, ms)

/-- Embedding of `ExporterCollector.Collect` (`exporter_collector.go:114-123`): the
compare-and-swap guard around `collectExporterMetrics`. -/
def ExporterCollectorCollect (w : World) (conn : ConnAPI)
    (st : ExporterState) : ExporterState × List Metric :=
  if st.collected then (st, [])
  else collectExporterMetrics w conn { st with collected := true }

/-! ## The scrape orchestrator (`collector.go`) -/

/-- Observable side effects of one scrape. -/
inductive Event where
  | closeConn
  | newConnectAttempt
  | sleepMs (ms : Nat)
  | freeDomain (i : Nat)
deriving DecidableEq, Repr

/-- State of `LibvirtCollector` between scrapes: the session handle and
the stateful collectors (only the exporter and connection collectors hold
mutable state; the others' `Reset` is a no-op). -/
structure LibvirtCollectorState where
  uri : String
  conn : ConnAPI
  exporter : ExporterState
  connectionCollected : Bool

/-- Result of one `Collect` call: the new state, the metric stream, the
side-effect trace and the log lines. -/
structure ScrapeResult where
  state : LibvirtCollectorState
  metrics : List Metric
  events : List Event
  logs : List String

/-- The per-domain body of the scrape loop (`collector.go:116-121`),
invoking the collectors in the registration order of
`NewLibvirtCollector` (`collector.go:56-64`). -/
def collectDomainStep (w : World) (conn : ConnAPI) (est : ExporterState)
    (cc : Bool) (d : DomainAPI) :
    ExporterState × Bool × List Metric × List String :=
  let (est1, m1) := ExporterCollectorCollect w conn est
  let (m2, l2) := DomainInfoCollectorFullCollect w.now d
  let (m3, l3) := CPUCollectorCollect d
  let (m4, l4) := MemoryCollectorCollect d
  let (m5, l5) := DiskCollectorCollect d
  let (m6, l6) := NetworkCollectorCollect d
  let (m7, l7) := DeviceCollectorCollect d
  let (cc1, m8, l8) := ConnectionCollectorCollect conn cc
  (est1, cc1, m1 ++ m2 ++ m3 ++ m4 ++ m5 ++ m6 ++ m7 ++ m8,
   l2 ++ l3 ++ l4 ++ l5 ++ l6 ++ l7 ++ l8)

/-- The scrape loop over the enumerated domains (`collector.go:116-121`). -/
def collectLoop (w : World) (conn : ConnAPI) (ds : List DomainAPI)
    (est : ExporterState) (cc : Bool) :
    ExporterState × Bool × List Metric × List String :=
  match ds with
  | [] => (est, cc, [], [])
  | d :: rest =>
    let (est1, cc1, ms, ls) := collectDomainStep w conn est cc d
    let (est2, cc2, msRest, lsRest) := collectLoop w conn rest est1 cc1
    (est2, cc2, ms ++ msRest, ls ++ lsRest)

/-- Holds as `true` iff `c.conn.IsAlive()` returned `(true, nil)`; the code
reconnects when `err != nil || !alive` (`collector.go:82-83`). -/
def aliveOk (c : ConnAPI) : Bool :=
  match c.isAlive with
  | .ok b => b
  | .error _ => false

/-- The part of `LibvirtCollector.Collect` from domain enumeration on
(`collector.go:96-127`): enumerate, register the deferred frees, reset
the collectors, run the loop, then record the domain count; the deferred
frees run on function exit, after everything else. -/
def scrapeWithConn (w : World) (s : LibvirtCollectorState)
    (evs : List Event) (lgs : List String) : ScrapeResult :=
  match s.conn.listAllDomains with
  | .error _ =>
    { state := s, metrics := [], events := evs
      logs := lgs ++ ["Error: Failed to list domains"] }
  | .ok domains =>
    let est0 := { s.exporter with collected := false }
    let (est1, cc1, ms, ls) := collectLoop w s.conn domains est0 false
    let est2 := { est1 with domainsFound := domains.length }
    { state := { s with exporter := est2, connectionCollected := cc1 }
      metrics := ms
      events := evs ++ (List.range domains.length).map Event.freeDomain
      logs := lgs ++ ls }

/-- Embedding of `LibvirtCollector.Collect` (`collector.go:77-127`): liveness check;
on failure close the stale session and attempt `libvirt.NewConnect`
exactly once, returning with no output if it fails; then enumerate and
collect. -/
def LibvirtCollectorCollect (w : World) (s : LibvirtCollectorState) :
    ScrapeResult :=
  if aliveOk s.conn then
    scrapeWithConn w s [] []
  else
    match w.newConnect with
    | .error _ =>
      { state := s, metrics := []
        events := [Event.closeConn, Event.newConnectAttempt]
        logs := ["Warning: Connection to libvirt lost, reconnecting...",
                 "Error: Failed to reconnect to libvirt"] }
    | .ok conn =>
      scrapeWithConn w { s with conn := conn }
        [Event.closeConn, Event.newConnectAttempt]
        ["Warning: Connection to libvirt lost, reconnecting...",
         "Successfully reconnected to libvirt"]

/-- The session the scrape body runs against: the original one when the
liveness check passes, otherwise the replacement produced by the single
reconnect attempt (unused if that attempt fails). -/
def effConn (w : World) (s : LibvirtCollectorState) : ConnAPI :=
  if aliveOk s.conn then s.conn
  else
    match w.newConnect with
    | .ok c => c
    | .error _ => s.conn

/-! ## Concrete fixtures for witnesses and counterexamples -/

/-- A domain oracle all of whose calls fail: building block for the
concrete fixtures below. -/
def errDomain : DomainAPI where
  getInfo := .error .other
  getName := .error .other
  getUUIDString := .error .other
  isPersistent := .error .other
  hasManagedSaveImage := .error .other
  getAutostart := .error .other
  getTime := .error .other
  getXMLDesc := .error .other
  unmarshal := fun _ => .error .other
  getMaxVcpus := .error .other
  getVcpus := .error .other
  memoryStats := .error .other
  blockStatsFlags := fun _ => .error .other
  blockStats := fun _ => .error .other
  interfaceStats := fun _ => .error .other
  listAllSnapshots := .error .other

/-- A descriptor declaring a single disk with target `vda` and no
interfaces. -/
def vdaOnlyXML : DomainXML :=
  { devices := some { disks := [{ target := some { dev := "vda" } }]
                      interfaces := [] } }

/-- Domain whose descriptor fetch and parse succeed and declare only
`vda`; every statistics probe would fail. -/
def alphaDomain : DomainAPI :=
  { errDomain with
      getXMLDesc := .ok "<domain/>"
      unmarshal := fun _ => .ok vdaOnlyXML }

/-- The descriptor path yields no device names: fetch failed, parse
failed, or extraction produced the empty list (the three conditions under
which `discoverBlockDevices` falls back to probing). -/
def blockDescriptorYieldsNone (d : DomainAPI) : Prop :=
  ∀ s dx, d.getXMLDesc = .ok s → d.unmarshal s = .ok dx →
    declaredBlockDevices dx = []

/-- Same for the interface discoverer. -/
def interfaceDescriptorYieldsNone (d : DomainAPI) : Prop :=
  ∀ s dx, d.getXMLDesc = .ok s → d.unmarshal s = .ok dx →
    declaredInterfaces dx = []

/-- All-zero block statistics (probe success payload). -/
def zeroBlockStats : DomainBlockStats :=
  { rdBytes := 0, wrBytes := 0, rdReq := 0, wrReq := 0
    rdTotalTimes := 0, wrTotalTimes := 0 }

/-- All-zero interface statistics (probe success payload). -/
def zeroIfaceStats : DomainInterfaceStats :=
  { rxBytes := 0, txBytes := 0, rxPackets := 0, txPackets := 0
    rxErrs := 0, txErrs := 0, rxDrop := 0, txDrop := 0 }

/-- Domain with no usable descriptor; the extended stats probe answers
for `vdb`, the basic probe for `sda`, the interface probe for `eth1`. -/
def probeDomain : DomainAPI :=
  { errDomain with
      blockStatsFlags := fun device =>
        if device = "vdb" then .ok zeroBlockStats else .error .other
      blockStats := fun device =>
        if device = "sda" then .ok zeroBlockStats else .error .other
      interfaceStats := fun iface =>
        if iface = "eth1" then .ok zeroIfaceStats else .error .other }

/-- The `DomainInfo` of a stopped (`SHUTOFF`) domain with 524288 KiB of
current memory. -/
def stoppedInfo : DomainInfo :=
  { state := 5, maxMem := 1048576, memory := 524288
    nrVirtCpu := 2, cpuTime := 1000000000 }

/-- Stopped domain whose identity queries all succeed. -/
def betaDomain : DomainAPI :=
  { errDomain with
      getInfo := .ok stoppedInfo
      getName := .ok "beta"
      getUUIDString := .ok "beta-uuid"
      isPersistent := .ok true
      hasManagedSaveImage := .ok false
      getAutostart := .ok false }

/-- The `DomainInfo` of a running domain with 524288 KiB of current memory. -/
def runningInfo : DomainInfo :=
  { state := 1, maxMem := 1048576, memory := 524288
    nrVirtCpu := 2, cpuTime := 2000000000 }

/-- Running domain whose identity and vCPU queries succeed; the
boot-time query fails. -/
def alphaRunningDomain : DomainAPI :=
  { errDomain with
      getInfo := .ok runningInfo
      getName := .ok "alpha"
      getUUIDString := .ok "alpha-uuid"
      isPersistent := .ok true
      hasManagedSaveImage := .ok false
      getAutostart := .ok true
      getMaxVcpus := .ok 4
      getVcpus := .ok [(), ()] }

/-! ## Scrape-level fixtures -/

/-- Exporter self-monitoring state at process start. -/
def initialExporterState : ExporterState :=
  { collected := false, lastScrape := 0, scrapeErrorsTotal := 0
    cacheHits := 0, cacheMisses := 0, domainsFound := 0 }

/-- A session whose liveness check reports it dead and whose other calls
fail. -/
def deadConn : ConnAPI :=
  { isAlive := .ok false
    listAllDomains := .error .other
    getURI := .error .other
    getCapabilities := .error .other
    listDomains := .error .other
    listDefinedDomains := .error .other }

/-- Scrape environment in which the reconnect attempt fails. -/
def failWorld : World :=
  { newConnect := .error .other, now := 1700000000, elapsed := 0 }

/-- Collector state holding the dead session. -/
def deadState : LibvirtCollectorState :=
  { uri := "qemu:///system", conn := deadConn
    exporter := initialExporterState, connectionCollected := false }

/-- A healthy session that enumerates zero domains. -/
def emptyConn : ConnAPI :=
  { isAlive := .ok true
    listAllDomains := .ok []
    getURI := .ok "qemu:///system"
    getCapabilities := .ok ""
    listDomains := .ok []
    listDefinedDomains := .ok [] }

/-- Collector state holding the healthy zero-domain session. -/
def emptyState : LibvirtCollectorState :=
  { uri := "qemu:///system", conn := emptyConn
    exporter := initialExporterState, connectionCollected := false }

/-- A healthy session that enumerates exactly one domain. -/
def oneDomainConn : ConnAPI :=
  { emptyConn with listAllDomains := .ok [betaDomain] }

/-- Collector state holding the healthy one-domain session. -/
def oneDomainState : LibvirtCollectorState :=
  { uri := "qemu:///system", conn := oneDomainConn
    exporter := initialExporterState, connectionCollected := false }

/-- Scrape environment in which no reconnect attempt is needed or made. -/
def steadyWorld : World :=
  { newConnect := .error .other, now := 1700000000, elapsed := 1 }

/-! ## Claim C4: helper lemmas -/

/-- Predicate for the self-monitoring `up` record. -/
def isUpRecord (m : Metric) : Bool := m.name == "libvirt_exporter_up"

/-- Predicate for the connection-collector liveness record. -/
def isConnAliveRecord (m : Metric) : Bool :=
  m.name == "libvirt_connection_alive"

/-! ### Lemmas about the fallback fold -/

/-- The fallback fold is a filter of the candidate list by the probe
predicate, and probes every candidate, for any starting accumulator. -/
theorem fallbackFold_eq (p : String → Bool) (l : List String)
    (acc probed : List String) :
    (l.foldl
      (fun acc name =>
        let probed := acc.2 ++ [name]
        if p name then (acc.1 ++ [name], probed) else (acc.1, probed))
      (acc, probed)) = (acc ++ l.filter p, probed ++ l) := by
  induction l generalizing acc probed with
  | nil => simp
  | cons x xs ih =>
    by_cases h : p x <;> simp [h, ih, List.filter_cons]

theorem fallbackBlockDeviceDiscovery_eq (d : DomainAPI) :
    fallbackBlockDeviceDiscovery d =
      (commonDevices.filter (blockProbeOk d), commonDevices) := by
  have h :
      fallbackBlockDeviceDiscovery d =
        commonDevices.foldl
          (fun acc name =>
            let probed := acc.2 ++ [name]
            if blockProbeOk d name then (acc.1 ++ [name], probed)
            else (acc.1, probed))
          ([], []) := by
    unfold fallbackBlockDeviceDiscovery blockProbeOk
    congr 1
    funext acc device
    by_cases h1 : exceptOk (d.blockStatsFlags device) <;>
      by_cases h2 : exceptOk (d.blockStats device) <;> simp [h1, h2]
  rw [h, fallbackFold_eq]
  simp

theorem fallbackNetworkInterfaceDiscovery_eq (d : DomainAPI) :
    fallbackNetworkInterfaceDiscovery d =
      (commonInterfaces.filter (interfaceProbeOk d), commonInterfaces) := by
  have h :
      fallbackNetworkInterfaceDiscovery d =
        commonInterfaces.foldl
          (fun acc name =>
            let probed := acc.2 ++ [name]
            if interfaceProbeOk d name then (acc.1 ++ [name], probed)
            else (acc.1, probed))
          ([], []) := by
    unfold fallbackNetworkInterfaceDiscovery interfaceProbeOk
    rfl
  rw [h, fallbackFold_eq]
  simp

theorem commonDevices_nodup : commonDevices.Nodup := by decide

theorem commonInterfaces_nodup : commonInterfaces.Nodup := by decide

/-- Claim C5: when the descriptor is fetched and parsed successfully and
declares at least one block-device target name, the discoverer returns
exactly the declared list and issues no probe calls. -/
theorem discoverBlockDevices_prefers_descriptor (d : DomainAPI)
    (s : String) (dx : DomainXML)
    (hfetch : d.getXMLDesc = .ok s)
    (hparse : d.unmarshal s = .ok dx)
    (hdecl : declaredBlockDevices dx ≠ []) :
    discoverBlockDevices d = (declaredBlockDevices dx, []) := by
  simp [discoverBlockDevices, hfetch, hparse, hdecl]

theorem discoverBlockDevices_prefers_descriptor_witness :
    alphaDomain.getXMLDesc = .ok "<domain/>" ∧
    alphaDomain.unmarshal "<domain/>" = .ok vdaOnlyXML ∧
    declaredBlockDevices vdaOnlyXML = ["vda"] ∧
    discoverBlockDevices alphaDomain = (["vda"], []) := by
  have hdecl : declaredBlockDevices vdaOnlyXML = ["vda"] := by decide
  have h := discoverBlockDevices_prefers_descriptor alphaDomain "<domain/>"
    vdaOnlyXML rfl rfl (by decide)
  exact ⟨rfl, rfl, hdecl, by rw [h, hdecl]⟩

/-- Claim C6: when the descriptor yields zero names, the discoverers
probe every name of the fixed candidate list and return exactly the names
whose probe succeeded, as an ordered duplicate-free subsequence of the
candidate list. -/
theorem discovery_fallback_correct (d : DomainAPI)
    (hb : blockDescriptorYieldsNone d)
    (hi : interfaceDescriptorYieldsNone d) :
    discoverBlockDevices d =
      (commonDevices.filter (blockProbeOk d), commonDevices) ∧
    (discoverBlockDevices d).1.Sublist commonDevices ∧
    (discoverBlockDevices d).1.Nodup ∧
    (∀ n, n ∈ (discoverBlockDevices d).1 ↔
        n ∈ commonDevices ∧ blockProbeOk d n = true) ∧
    discoverNetworkInterfaces d =
      (commonInterfaces.filter (interfaceProbeOk d), commonInterfaces) ∧
    (discoverNetworkInterfaces d).1.Sublist commonInterfaces ∧
    (discoverNetworkInterfaces d).1.Nodup ∧
    (∀ n, n ∈ (discoverNetworkInterfaces d).1 ↔
        n ∈ commonInterfaces ∧ interfaceProbeOk d n = true) := by
  have hb1 : discoverBlockDevices d =
      (commonDevices.filter (blockProbeOk d), commonDevices) := by
    rw [← fallbackBlockDeviceDiscovery_eq]
    unfold discoverBlockDevices
    cases hx : d.getXMLDesc with
    | error e => rfl
    | ok s =>
      cases hu : d.unmarshal s with
      | error e => simp [hu]
      | ok dx => simp [hu, hb s dx hx hu]
  have hi1 : discoverNetworkInterfaces d =
      (commonInterfaces.filter (interfaceProbeOk d), commonInterfaces) := by
    rw [← fallbackNetworkInterfaceDiscovery_eq]
    unfold discoverNetworkInterfaces
    cases hx : d.getXMLDesc with
    | error e => rfl
    | ok s =>
      cases hu : d.unmarshal s with
      | error e => simp [hu]
      | ok dx => simp [hu, hi s dx hx hu]
  refine ⟨hb1, ?_, ?_, ?_, hi1, ?_, ?_, ?_⟩
  · rw [hb1]; exact List.filter_sublist _
  · rw [hb1]; exact commonDevices_nodup.filter _
  · intro n; rw [hb1]; simp [List.mem_filter]
  · rw [hi1]; exact List.filter_sublist _
  · rw [hi1]; exact commonInterfaces_nodup.filter _
  · intro n; rw [hi1]; simp [List.mem_filter]

theorem discovery_fallback_correct_witness :
    blockDescriptorYieldsNone probeDomain ∧
    interfaceDescriptorYieldsNone probeDomain ∧
    discoverBlockDevices probeDomain = (["vdb", "sda"], commonDevices) ∧
    discoverNetworkInterfaces probeDomain = (["eth1"], commonInterfaces) := by
  have hb : blockDescriptorYieldsNone probeDomain := by
    intro s dx hs
    simp [probeDomain, errDomain] at hs
  have hi : interfaceDescriptorYieldsNone probeDomain := by
    intro s dx hs
    simp [probeDomain, errDomain] at hs
  have h := discovery_fallback_correct probeDomain hb hi
  refine ⟨hb, hi, ?_, ?_⟩
  · rw [h.1]; decide
  · rw [h.2.2.2.2.1]; decide

/-- Claim C3: for a domain whose state is not running (with the initial
domain-info query succeeding), the disk and network statistics functions
return an empty list with a nil error, and the CPU and memory collectors
emit zero records and log nothing. -/
theorem nonrunning_running_only_collectors_empty (d : DomainAPI)
    (info : DomainInfo)
    (hinfo : d.getInfo = .ok info)
    (hstate : info.state ≠ DOMAIN_RUNNING) :
    CollectDiskStats d = .ok [] ∧
    CollectNetworkStats d = .ok [] ∧
    CPUCollectorCollect d = ([], []) ∧
    MemoryCollectorCollect d = ([], []) := by
  refine ⟨?_, ?_, ?_, ?_⟩ <;>
    simp [CollectDiskStats, CollectNetworkStats, CPUCollectorCollect,
      MemoryCollectorCollect, hinfo, hstate, bind, Except.bind, pure,
      Except.pure, Functor.map, Except.map]

theorem nonrunning_running_only_collectors_empty_witness :
    betaDomain.getInfo = .ok stoppedInfo ∧
    stoppedInfo.state ≠ DOMAIN_RUNNING ∧
    CollectDiskStats betaDomain = .ok [] ∧
    CollectNetworkStats betaDomain = .ok [] ∧
    CPUCollectorCollect betaDomain = ([], []) ∧
    MemoryCollectorCollect betaDomain = ([], []) := by
  have h := nonrunning_running_only_collectors_empty betaDomain stoppedInfo
    rfl (by decide)
  exact ⟨rfl, by decide, h.1, h.2.1, h.2.2.1, h.2.2.2⟩

/-- Claim C7: for a running domain whose current memory is reported as
K KiB by `GetInfo`, the emitted current-memory gauge value is exactly
K * 1024. -/
theorem memory_current_gauge_exact (now : Int) (d : DomainAPI)
    (info : DomainInfo) (nm uu : String) (pers msave auto : Bool)
    (hinfo : d.getInfo = .ok info)
    (hrun : info.state = DOMAIN_RUNNING)
    (hname : d.getName = .ok nm)
    (huuid : d.getUUIDString = .ok uu)
    (hpers : d.isPersistent = .ok pers)
    (hmsave : d.hasManagedSaveImage = .ok msave)
    (hauto : d.getAutostart = .ok auto) :
    (DomainInfoCollectorCollect now d).1.filter
        (fun m => m.name == "libvirt_vm_memory_current_bytes") =
      [{ name := "libvirt_vm_memory_current_bytes", kind := .gauge
         value := (info.memory : Rat) * 1024, labels := [nm, uu] }] := by
  cases ht : d.getTime with
  | ok t =>
    simp [DomainInfoCollectorCollect, CollectDomainInfo, hinfo, hname, huuid,
      hpers, hmsave, hauto, hrun, ht, bind, Except.bind, pure, Except.pure,
      List.filter_cons, List.filter_append]
  | error e =>
    simp [DomainInfoCollectorCollect, CollectDomainInfo, hinfo, hname, huuid,
      hpers, hmsave, hauto, hrun, ht, bind, Except.bind, pure, Except.pure,
      List.filter_cons, List.filter_append]

theorem memory_current_gauge_exact_witness :
    runningInfo.memory = 524288 ∧
    (DomainInfoCollectorCollect 0 alphaRunningDomain).1.filter
        (fun m => m.name == "libvirt_vm_memory_current_bytes") =
      [{ name := "libvirt_vm_memory_current_bytes", kind := .gauge
         value := (536870912 : Rat), labels := ["alpha", "alpha-uuid"] }] := by
  have h := memory_current_gauge_exact 0 alphaRunningDomain runningInfo
    "alpha" "alpha-uuid" true false true rfl rfl rfl rfl rfl rfl rfl
  have hv : ((runningInfo.memory : Nat) : Rat) * 1024 = (536870912 : Rat) := by
    norm_num [runningInfo]
  rw [hv] at h
  exact ⟨rfl, h⟩

/-- Claim C8: for every domain whose identity queries succeed, the full
identity/state collector emits the running flag (1 running / 0 other),
CPU time, current and maximum memory, autostart, persistent and
managed-save records regardless of running state; the uptime record is
additionally emitted exactly when the domain is running and the
boot-time query succeeds, and its absence produces no log line. -/
theorem identity_collector_always_emits (now : Int) (d : DomainAPI)
    (info : DomainInfo) (nm uu : String) (pers msave auto : Bool)
    (hinfo : d.getInfo = .ok info)
    (hname : d.getName = .ok nm)
    (huuid : d.getUUIDString = .ok uu)
    (hpers : d.isPersistent = .ok pers)
    (hmsave : d.hasManagedSaveImage = .ok msave)
    (hauto : d.getAutostart = .ok auto) :
    ((DomainInfoCollectorFullCollect now d).1.map (fun m => m.name) =
      ["libvirt_vm_status", "libvirt_vm_cpu_time_seconds_total",
       "libvirt_vm_memory_current_bytes", "libvirt_vm_memory_max_bytes",
       "libvirt_vm_autostart_enabled", "libvirt_vm_persistent",
       "libvirt_vm_managed_save"] ++
      (if info.state = DOMAIN_RUNNING ∧ exceptOk d.getTime = true then
        ["libvirt_vm_uptime_seconds"] else [])) ∧
    ({ name := "libvirt_vm_status", kind := .gauge
       value := if info.state = DOMAIN_RUNNING then 1 else 0
       labels := [nm, uu] } : Metric) ∈ (DomainInfoCollectorFullCollect now d).1 ∧
    (DomainInfoCollectorFullCollect now d).2 = [] := by
  by_cases hrun : info.state = DOMAIN_RUNNING
  · cases ht : d.getTime with
    | ok t =>
      refine ⟨?_, ?_, ?_⟩ <;>
        simp [DomainInfoCollectorFullCollect, CollectDomainInfo, hinfo, hname,
          huuid, hpers, hmsave, hauto, hrun, ht, bind, Except.bind, pure,
          Except.pure, exceptOk]
    | error e =>
      refine ⟨?_, ?_, ?_⟩ <;>
        simp [DomainInfoCollectorFullCollect, CollectDomainInfo, hinfo, hname,
          huuid, hpers, hmsave, hauto, hrun, ht, bind, Except.bind, pure,
          Except.pure, exceptOk]
  · refine ⟨?_, ?_, ?_⟩ <;>
      simp [DomainInfoCollectorFullCollect, CollectDomainInfo, hinfo, hname,
        huuid, hpers, hmsave, hauto, hrun, bind, Except.bind, pure,
        Except.pure, exceptOk]

theorem identity_collector_always_emits_witness :
    ((DomainInfoCollectorFullCollect 0 betaDomain).1.map (fun m => m.name) =
      ["libvirt_vm_status", "libvirt_vm_cpu_time_seconds_total",
       "libvirt_vm_memory_current_bytes", "libvirt_vm_memory_max_bytes",
       "libvirt_vm_autostart_enabled", "libvirt_vm_persistent",
       "libvirt_vm_managed_save"]) ∧
    ({ name := "libvirt_vm_status", kind := .gauge, value := 0
       labels := ["beta", "beta-uuid"] } : Metric) ∈
      (DomainInfoCollectorFullCollect 0 betaDomain).1 ∧
    (DomainInfoCollectorFullCollect 0 betaDomain).2 = [] := by
  have h := identity_collector_always_emits 0 betaDomain stoppedInfo
    "beta" "beta-uuid" true false false rfl rfl rfl rfl rfl rfl
  refine ⟨?_, ?_, h.2.2⟩
  · have := h.1
    simpa [stoppedInfo, DOMAIN_RUNNING, betaDomain, errDomain] using this
  · have := h.2.1
    simpa [stoppedInfo, DOMAIN_RUNNING] using this

/-- The raw CPU-statistics collection never populates the extended
fields: any successful result has `UserTime`, `SystemTime` and
`StealTime` at their Go zero value (`libvirt_collector.go:122-128`). -/
theorem collectCPUStats_extended_zero (d : DomainAPI) (m : CPUStatsMetrics)
    (hok : CollectCPUStats d = .ok m) :
    m.userTime = 0 ∧ m.systemTime = 0 ∧ m.stealTime = 0 := by
  cases hn : d.getName with
  | error e => simp [CollectCPUStats, hn, bind, Except.bind] at hok
  | ok nm =>
  cases hu : d.getUUIDString with
  | error e => simp [CollectCPUStats, hn, hu, bind, Except.bind] at hok
  | ok uu =>
  cases hi : d.getInfo with
  | error e => simp [CollectCPUStats, hn, hu, hi, bind, Except.bind] at hok
  | ok info =>
  cases hmx : d.getMaxVcpus with
  | error e => simp [CollectCPUStats, hn, hu, hi, hmx, bind, Except.bind] at hok
  | ok mx =>
    simp [CollectCPUStats, hn, hu, hi, hmx, bind, Except.bind, pure,
      Except.pure] at hok
    simp [← hok]

/-- Claim C10: the CPU collector advertises the guest user-time,
system-time and steal-time metrics in `describe()`, but never emits them:
the raw collection leaves those fields at zero and emission is gated on
strict positivity. -/
theorem cpu_extended_metrics_never_emitted (d : DomainAPI) :
    "libvirt_vm_cpu_user_time_nanoseconds" ∈ CPUCollectorDescribe ∧
    "libvirt_vm_cpu_system_time_nanoseconds" ∈ CPUCollectorDescribe ∧
    "libvirt_vm_cpu_steal_time_nanoseconds" ∈ CPUCollectorDescribe ∧
    (∀ m, CollectCPUStats d = .ok m →
        m.userTime = 0 ∧ m.systemTime = 0 ∧ m.stealTime = 0) ∧
    (∀ rec ∈ (CPUCollectorCollect d).1,
        rec.name ≠ "libvirt_vm_cpu_user_time_nanoseconds" ∧
        rec.name ≠ "libvirt_vm_cpu_system_time_nanoseconds" ∧
        rec.name ≠ "libvirt_vm_cpu_steal_time_nanoseconds") := by
  refine ⟨by decide, by decide, by decide,
    fun m hok => collectCPUStats_extended_zero d m hok, ?_⟩
  intro rec hrec
  simp only [CPUCollectorCollect] at hrec
  cases hi : d.getInfo <;> simp [hi] at hrec
  case ok info =>
    by_cases hrun : info.state = DOMAIN_RUNNING <;> simp [hrun] at hrec
    cases hc : CollectCPUStats d with
    | error e =>
      simp [hc] at hrec
      revert hrec
      split <;> simp
    | ok m =>
      simp [hc] at hrec
      obtain ⟨h1, h2, h3⟩ := collectCPUStats_extended_zero d m hc
      simp [h1, h2, h3] at hrec
      rcases hrec with rfl | rfl | rfl <;>
        refine ⟨?_, ?_, ?_⟩ <;> simp

theorem cpu_extended_metrics_never_emitted_witness :
    (CPUCollectorCollect alphaRunningDomain).1.map (fun m => m.name) =
      ["libvirt_vm_vcpu_max", "libvirt_vm_vcpu_current",
       "libvirt_vm_cpu_time_total_nanoseconds"] ∧
    (∀ rec ∈ (CPUCollectorCollect alphaRunningDomain).1,
        rec.name ≠ "libvirt_vm_cpu_user_time_nanoseconds") := by
  refine ⟨by decide, fun rec hrec =>
    ((cpu_extended_metrics_never_emitted alphaRunningDomain).2.2.2.2
      rec hrec).1⟩

/-! ## Claim C2 -/

/-- Claim C2 (refuted by the code): on a failed liveness check the code
closes the stale session, then calls `libvirt.NewConnect` exactly once
with no backoff sleep, and on failure of that single attempt aborts the
cycle — there is no bound of more than one attempt and no increasing
backoff. -/
theorem reconnect_single_attempt_no_backoff :
    (LibvirtCollectorCollect failWorld deadState).events =
      [Event.closeConn, Event.newConnectAttempt] ∧
    ((LibvirtCollectorCollect failWorld deadState).events.countP
        fun e => match e with
          | Event.newConnectAttempt => true
          | _ => false) = 1 ∧
    ((LibvirtCollectorCollect failWorld deadState).events.countP
        fun e => match e with
          | Event.sleepMs _ => true
          | _ => false) = 0 ∧
    (LibvirtCollectorCollect failWorld deadState).metrics = [] :=
  ⟨rfl, rfl, rfl, rfl⟩

/-! ## Claim C1 -/

/-- Claim C1 counterexample: with a dead session and a failed reconnect
the scrape returns no records at all — in particular no self-monitoring
`up` gauge with value 0. -/
theorem no_up_gauge_on_failed_cycle :
    (LibvirtCollectorCollect failWorld deadState).metrics = [] ∧
    ((LibvirtCollectorCollect failWorld deadState).metrics.countP
        fun m => m.name == "libvirt_exporter_up") = 0 :=
  ⟨rfl, rfl⟩

/-- Claim C1 (amended): when the liveness check fails and the single
reconnect attempt fails, or when domain enumeration fails, the scrape
returns the empty record set: failure is communicated by emptiness, and
no `up` gauge is emitted for that cycle. -/
theorem failed_cycle_empty_snapshot (w : World) (s : LibvirtCollectorState)
    (h : (aliveOk s.conn = false ∧ exceptErr w.newConnect = true) ∨
         exceptErr ((effConn w s).listAllDomains) = true) :
    (LibvirtCollectorCollect w s).metrics = [] := by
  cases ha : aliveOk s.conn with
  | true =>
    rcases h with ⟨ha2, _⟩ | he
    · rw [ha] at ha2; cases ha2
    · have hc : effConn w s = s.conn := by simp [effConn, ha]
      rw [hc] at he
      unfold LibvirtCollectorCollect
      rw [if_pos ha]
      unfold scrapeWithConn
      cases hl : s.conn.listAllDomains with
      | error e => rfl
      | ok ds => rw [hl] at he; simp [exceptErr] at he
  | false =>
    cases hn : w.newConnect with
    | error e =>
      unfold LibvirtCollectorCollect
      rw [if_neg (by simp [ha]), hn]
    | ok c =>
      rcases h with ⟨_, hne⟩ | he
      · rw [hn] at hne; simp [exceptErr] at hne
      · have hc : effConn w s = c := by simp [effConn, ha, hn]
        rw [hc] at he
        unfold LibvirtCollectorCollect
        rw [if_neg (by simp [ha]), hn]
        unfold scrapeWithConn
        cases hl : c.listAllDomains with
        | error e => simp [hl]
        | ok ds => rw [hl] at he; simp [exceptErr] at he

theorem failed_cycle_empty_snapshot_witness :
    (aliveOk deadState.conn = false ∧ exceptErr failWorld.newConnect = true) ∧
    (LibvirtCollectorCollect failWorld deadState).metrics = [] := by
  refine ⟨⟨by decide, by decide⟩, ?_⟩
  exact failed_cycle_empty_snapshot failWorld deadState
    (Or.inl ⟨by decide, by decide⟩)

theorem mem_foldl_append {α β : Type} (f : α → List β) (l : List α)
    (acc : List β) (b : β)
    (hb : b ∈ l.foldl (fun acc a => acc ++ f a) acc) :
    b ∈ acc ∨ ∃ a ∈ l, b ∈ f a := by
  induction l generalizing acc with
  | nil => exact Or.inl hb
  | cons x xs ih =>
    rcases ih (acc ++ f x) hb with h | ⟨a, ha, hfa⟩
    · rcases List.mem_append.mp h with h1 | h2
      · exact Or.inl h1
      · exact Or.inr ⟨x, List.mem_cons_self x xs, h2⟩
    · exact Or.inr ⟨a, List.mem_cons_of_mem x ha, hfa⟩

theorem countP_zero_of_names {p : Metric → Bool} {l : List Metric}
    (h : ∀ rec ∈ l, p rec = false) : l.countP p = 0 :=
  List.countP_eq_zero.mpr (by intro a ha; simp [h a ha])

theorem domainInfoFull_no_host_records (now : Int) (d : DomainAPI) :
    ∀ rec ∈ (DomainInfoCollectorFullCollect now d).1,
      isUpRecord rec = false ∧ isConnAliveRecord rec = false := by
  intro rec hrec
  simp only [DomainInfoCollectorFullCollect] at hrec
  cases hc : CollectDomainInfo now d <;> simp [hc] at hrec
  case ok m =>
    by_cases h : m.hasUptime <;> simp [h] at hrec <;>
      rcases hrec with rfl | rfl | rfl | rfl | rfl | rfl | rfl | rfl <;>
      simp [isUpRecord, isConnAliveRecord]

theorem cpu_no_host_records (d : DomainAPI) :
    ∀ rec ∈ (CPUCollectorCollect d).1,
      isUpRecord rec = false ∧ isConnAliveRecord rec = false := by
  intro rec hrec
  simp only [CPUCollectorCollect] at hrec
  cases hi : d.getInfo <;> simp [hi] at hrec
  case ok info =>
    by_cases hrun : info.state = DOMAIN_RUNNING <;> simp [hrun] at hrec
    cases hc : CollectCPUStats d with
    | error e =>
      by_cases he : e = LvErr.operationInvalid <;> simp [hc, he] at hrec
    | ok m =>
      simp [hc] at hrec
      rcases hrec with rfl | rfl | rfl | ⟨_, rfl⟩ | ⟨_, rfl⟩ | ⟨_, rfl⟩ <;>
        simp [isUpRecord, isConnAliveRecord]

theorem memory_no_host_records (d : DomainAPI) :
    ∀ rec ∈ (MemoryCollectorCollect d).1,
      isUpRecord rec = false ∧ isConnAliveRecord rec = false := by
  intro rec hrec
  simp only [MemoryCollectorCollect] at hrec
  cases hi : d.getInfo <;> simp [hi] at hrec
  case ok info =>
    by_cases hrun : info.state = DOMAIN_RUNNING <;> simp [hrun] at hrec
    cases hc : CollectMemoryStats d with
    | error e =>
      by_cases he : e = LvErr.operationInvalid <;> simp [hc, he] at hrec
    | ok m =>
      simp [hc] at hrec
      rcases hrec with rfl | rfl | rfl | rfl | rfl | rfl | rfl | rfl | rfl <;>
        simp [isUpRecord, isConnAliveRecord]

theorem disk_no_host_records (d : DomainAPI) :
    ∀ rec ∈ (DiskCollectorCollect d).1,
      isUpRecord rec = false ∧ isConnAliveRecord rec = false := by
  intro rec hrec
  simp only [DiskCollectorCollect] at hrec
  cases hc : CollectDiskStats d <;> simp [hc] at hrec
  case ok lst =>
    rcases mem_foldl_append _ lst [] rec hrec with h | ⟨a, _, ha⟩
    · simp at h
    · simp at ha
      rcases ha with rfl | rfl | rfl | rfl <;>
        simp [isUpRecord, isConnAliveRecord]

theorem network_no_host_records (d : DomainAPI) :
    ∀ rec ∈ (NetworkCollectorCollect d).1,
      isUpRecord rec = false ∧ isConnAliveRecord rec = false := by
  intro rec hrec
  simp only [NetworkCollectorCollect] at hrec
  cases hi : d.getInfo <;> simp [hi] at hrec
  case ok info =>
    by_cases hrun : info.state = DOMAIN_RUNNING <;> simp [hrun] at hrec
    cases hc : CollectNetworkStats d with
    | error e =>
      by_cases he : e = LvErr.operationInvalid <;> simp [hc, he] at hrec
    | ok lst =>
      simp [hc] at hrec
      rcases mem_foldl_append _ lst [] rec hrec with h | ⟨a, _, ha⟩
      · simp at h
      · simp at ha
        rcases ha with rfl | rfl | rfl | rfl | rfl | rfl | rfl | rfl <;>
          simp [isUpRecord, isConnAliveRecord]

theorem device_no_host_records (d : DomainAPI) :
    ∀ rec ∈ (DeviceCollectorCollect d).1,
      isUpRecord rec = false ∧ isConnAliveRecord rec = false := by
  intro rec hrec
  simp only [DeviceCollectorCollect] at hrec
  cases hd : CollectDeviceStats d <;> cases hs : CollectSnapshotStats d <;>
    simp [hd, hs] at hrec <;>
    rcases hrec with rfl | rfl | rfl <;>
    simp [isUpRecord, isConnAliveRecord]

/-- The exporter collector with the flag already set is a no-op. -/
theorem exporter_collect_skip (w : World) (conn : ConnAPI)
    (st : ExporterState) (h : st.collected = true) :
    ExporterCollectorCollect w conn st = (st, []) := by
  simp [ExporterCollectorCollect, h]

/-- The exporter collector on a fresh flag sets it and emits exactly one
`up` record and no connection-liveness record. -/
theorem exporter_collect_first (w : World) (conn : ConnAPI)
    (st : ExporterState) (h : st.collected = false) :
    (ExporterCollectorCollect w conn st).1.collected = true ∧
    (ExporterCollectorCollect w conn st).2.countP isUpRecord = 1 ∧
    (ExporterCollectorCollect w conn st).2.countP isConnAliveRecord = 0 := by
  refine ⟨?_, ?_, ?_⟩ <;>
    simp [ExporterCollectorCollect, h, collectExporterMetrics, isUpRecord,
      isConnAliveRecord, List.countP_cons]

/-- The connection collector with the flag already set is a no-op. -/
theorem connection_collect_skip (conn : ConnAPI) :
    ConnectionCollectorCollect conn true = (true, [], []) := by
  simp [ConnectionCollectorCollect]

/-- The connection collector on a fresh flag sets it and emits exactly
one connection-liveness record and no `up` record. -/
theorem connection_collect_first (conn : ConnAPI) :
    (ConnectionCollectorCollect conn false).1 = true ∧
    (ConnectionCollectorCollect conn false).2.1.countP isConnAliveRecord = 1 ∧
    (ConnectionCollectorCollect conn false).2.1.countP isUpRecord = 0 := by
  refine ⟨?_, ?_, ?_⟩ <;>
    simp [ConnectionCollectorCollect, collectConnectionMetricsInner,
      collectHostMetricsInner, collectStoragePoolMetricsInner,
      collectNetworkPoolMetricsInner, collectHostInterfaceMetricsInner,
      CollectConnectionStats, isUpRecord, isConnAliveRecord,
      List.countP_cons, List.countP_append]

/-- One loop iteration with both guards already set leaves the exporter
state and flag unchanged and emits no host-level or self-monitoring
record. -/
theorem collectDomainStep_flags_set (w : World) (conn : ConnAPI)
    (est : ExporterState) (d : DomainAPI) (h : est.collected = true) :
    collectDomainStep w conn est true d =
      (est, true, (collectDomainStep w conn est true d).2.2.1,
        (collectDomainStep w conn est true d).2.2.2) ∧
    (collectDomainStep w conn est true d).2.2.1.countP isUpRecord = 0 ∧
    (collectDomainStep w conn est true d).2.2.1.countP isConnAliveRecord = 0 := by
  have hstep :
      collectDomainStep w conn est true d =
        (est, true,
          (DomainInfoCollectorFullCollect w.now d).1 ++
            (CPUCollectorCollect d).1 ++ (MemoryCollectorCollect d).1 ++
            (DiskCollectorCollect d).1 ++ (NetworkCollectorCollect d).1 ++
            (DeviceCollectorCollect d).1,
          (DomainInfoCollectorFullCollect w.now d).2 ++
            (CPUCollectorCollect d).2 ++ (MemoryCollectorCollect d).2 ++
            (DiskCollectorCollect d).2 ++ (NetworkCollectorCollect d).2 ++
            (DeviceCollectorCollect d).2) := by
    unfold collectDomainStep
    rw [exporter_collect_skip w conn est h, connection_collect_skip conn]
    simp
  refine ⟨?_, ?_, ?_⟩
  · rw [hstep]
  · rw [hstep]
    simp only [List.countP_append]
    rw [countP_zero_of_names (fun rec hr => (domainInfoFull_no_host_records w.now d rec hr).1),
      countP_zero_of_names (fun rec hr => (cpu_no_host_records d rec hr).1),
      countP_zero_of_names (fun rec hr => (memory_no_host_records d rec hr).1),
      countP_zero_of_names (fun rec hr => (disk_no_host_records d rec hr).1),
      countP_zero_of_names (fun rec hr => (network_no_host_records d rec hr).1),
      countP_zero_of_names (fun rec hr => (device_no_host_records d rec hr).1)]
  · rw [hstep]
    simp only [List.countP_append]
    rw [countP_zero_of_names (fun rec hr => (domainInfoFull_no_host_records w.now d rec hr).2),
      countP_zero_of_names (fun rec hr => (cpu_no_host_records d rec hr).2),
      countP_zero_of_names (fun rec hr => (memory_no_host_records d rec hr).2),
      countP_zero_of_names (fun rec hr => (disk_no_host_records d rec hr).2),
      countP_zero_of_names (fun rec hr => (network_no_host_records d rec hr).2),
      countP_zero_of_names (fun rec hr => (device_no_host_records d rec hr).2)]

/-- The loop tail with both guards set emits no host-level or
self-monitoring record. -/
theorem collectLoop_flags_set (w : World) (conn : ConnAPI)
    (ds : List DomainAPI) :
    ∀ est : ExporterState, est.collected = true →
      (collectLoop w conn ds est true).2.2.1.countP isUpRecord = 0 ∧
      (collectLoop w conn ds est true).2.2.1.countP isConnAliveRecord = 0 := by
  induction ds with
  | nil => intro est h; simp [collectLoop]
  | cons d rest ih =>
    intro est h
    obtain ⟨hstep, h3, h4⟩ := collectDomainStep_flags_set w conn est d h
    obtain ⟨ih1, ih2⟩ := ih est h
    unfold collectLoop
    rw [hstep]
    refine ⟨?_, ?_⟩ <;>
      simp [List.countP_append, h3, h4, ih1, ih2]

/-- The scrape loop started with freshly reset guards emits the `up` and
connection-liveness records exactly once when at least one domain was
enumerated and zero times when the domain list is empty. -/
theorem collectLoop_host_records_once (w : World) (conn : ConnAPI)
    (ds : List DomainAPI) (est : ExporterState) (h : est.collected = false) :
    (collectLoop w conn ds est false).2.2.1.countP isUpRecord =
      (if ds.isEmpty then 0 else 1) ∧
    (collectLoop w conn ds est false).2.2.1.countP isConnAliveRecord =
      (if ds.isEmpty then 0 else 1) := by
  cases ds with
  | nil => simp [collectLoop]
  | cons d rest =>
    obtain ⟨he1, he2, he3⟩ := exporter_collect_first w conn est h
    obtain ⟨hc1, hc2, hc3⟩ := connection_collect_first conn
    have hstep :
        collectDomainStep w conn est false d =
          ((ExporterCollectorCollect w conn est).1, true,
            (ExporterCollectorCollect w conn est).2 ++
              ((DomainInfoCollectorFullCollect w.now d).1 ++
                (CPUCollectorCollect d).1 ++ (MemoryCollectorCollect d).1 ++
                (DiskCollectorCollect d).1 ++ (NetworkCollectorCollect d).1 ++
                (DeviceCollectorCollect d).1 ++
                (ConnectionCollectorCollect conn false).2.1),
            (DomainInfoCollectorFullCollect w.now d).2 ++
              (CPUCollectorCollect d).2 ++ (MemoryCollectorCollect d).2 ++
              (DiskCollectorCollect d).2 ++ (NetworkCollectorCollect d).2 ++
              (DeviceCollectorCollect d).2 ++
              (ConnectionCollectorCollect conn false).2.2) := by
      unfold collectDomainStep
      rcases hx : ExporterCollectorCollect w conn est with ⟨est1, m1⟩
      rcases hy : ConnectionCollectorCollect conn false with ⟨cc1, m8, l8⟩
      rw [hy] at hc1
      simp only at hc1
      subst hc1
      simp [List.append_assoc]
    obtain ⟨ih1, ih2⟩ := collectLoop_flags_set w conn rest
      (ExporterCollectorCollect w conn est).1 he1
    unfold collectLoop
    rw [hstep]
    refine ⟨?_, ?_⟩ <;>
      simp [List.countP_append, he2, he3, hc2, hc3, ih1, ih2,
        countP_zero_of_names
          (fun rec hr => (domainInfoFull_no_host_records w.now d rec hr).1),
        countP_zero_of_names
          (fun rec hr => (domainInfoFull_no_host_records w.now d rec hr).2),
        countP_zero_of_names (fun rec hr => (cpu_no_host_records d rec hr).1),
        countP_zero_of_names (fun rec hr => (cpu_no_host_records d rec hr).2),
        countP_zero_of_names (fun rec hr => (memory_no_host_records d rec hr).1),
        countP_zero_of_names (fun rec hr => (memory_no_host_records d rec hr).2),
        countP_zero_of_names (fun rec hr => (disk_no_host_records d rec hr).1),
        countP_zero_of_names (fun rec hr => (disk_no_host_records d rec hr).2),
        countP_zero_of_names (fun rec hr => (network_no_host_records d rec hr).1),
        countP_zero_of_names (fun rec hr => (network_no_host_records d rec hr).2),
        countP_zero_of_names (fun rec hr => (device_no_host_records d rec hr).1),
        countP_zero_of_names (fun rec hr => (device_no_host_records d rec hr).2)]

/-- Claim C4 counterexample: a healthy scrape that enumerates zero
domains emits no records at all — in particular neither the
self-monitoring `up` record nor the connection-liveness record appears
(the claim requires them exactly once, never zero). -/
theorem zero_domain_scrape_emits_no_host_records :
    (LibvirtCollectorCollect steadyWorld emptyState).metrics = [] ∧
    (LibvirtCollectorCollect steadyWorld emptyState).metrics.countP
      isUpRecord = 0 ∧
    (LibvirtCollectorCollect steadyWorld emptyState).metrics.countP
      isConnAliveRecord = 0 :=
  ⟨rfl, rfl, rfl⟩

/-- Claim C4 (amended): for every scrape that reaches domain enumeration
successfully — whatever the incoming guard state, since the guards are
reset at the start of each scrape — the self-monitoring and
connection/host-level records are emitted at most once: exactly once
when at least one domain is enumerated, zero times when the scrape
enumerates zero domains. -/
theorem host_and_self_records_once_per_scrape (w : World)
    (s : LibvirtCollectorState) (ds : List DomainAPI)
    (hpath : aliveOk s.conn = true ∨ exceptOk w.newConnect = true)
    (henum : (effConn w s).listAllDomains = .ok ds) :
    (LibvirtCollectorCollect w s).metrics.countP isUpRecord =
      (if ds.isEmpty then 0 else 1) ∧
    (LibvirtCollectorCollect w s).metrics.countP isConnAliveRecord =
      (if ds.isEmpty then 0 else 1) := by
  cases ha : aliveOk s.conn with
  | true =>
    have hc : effConn w s = s.conn := by simp [effConn, ha]
    rw [hc] at henum
    unfold LibvirtCollectorCollect
    rw [if_pos ha]
    unfold scrapeWithConn
    rw [henum]
    exact collectLoop_host_records_once w s.conn ds
      { s.exporter with collected := false } rfl
  | false =>
    cases hn : w.newConnect with
    | error e =>
      rcases hpath with h | h
      · rw [ha] at h; cases h
      · rw [hn] at h; simp [exceptOk] at h
    | ok c =>
      have hc : effConn w s = c := by simp [effConn, ha, hn]
      rw [hc] at henum
      unfold LibvirtCollectorCollect
      rw [if_neg (by simp [ha]), hn]
      unfold scrapeWithConn
      simp only
      rw [henum]
      exact collectLoop_host_records_once w c ds
        { s.exporter with collected := false } rfl

theorem host_and_self_records_once_per_scrape_witness :
    (LibvirtCollectorCollect steadyWorld oneDomainState).metrics.countP
      isUpRecord = 1 ∧
    (LibvirtCollectorCollect steadyWorld oneDomainState).metrics.countP
      isConnAliveRecord = 1 := by
  have h := host_and_self_records_once_per_scrape steadyWorld oneDomainState
    [betaDomain] (Or.inl (by decide)) rfl
  simpa using h

/-! ## Claim C9 -/

/-- Claim C9: for every scrape whose domain enumeration succeeds, every
enumerated domain handle is freed exactly once by the end of the scrape,
whatever the individual collectors did. -/
theorem enumerated_handles_freed_once (w : World)
    (s : LibvirtCollectorState) (ds : List DomainAPI) (i : Nat)
    (hpath : aliveOk s.conn = true ∨ exceptOk w.newConnect = true)
    (henum : (effConn w s).listAllDomains = .ok ds)
    (hi : i < ds.length) :
    ((LibvirtCollectorCollect w s).events.countP
      (fun e => e == Event.freeDomain i)) = 1 := by
  have hfree :
      ((List.range ds.length).map Event.freeDomain).countP
        (fun e => e == Event.freeDomain i) = 1 := by
    rw [List.countP_map]
    have h2 : ((fun e => e == Event.freeDomain i) ∘ Event.freeDomain) =
        fun a => a == i := by
      funext a
      by_cases hai : a = i <;> simp [hai]
    rw [h2]
    have h3 : (List.range ds.length).countP (fun a => a == i) =
        (List.range ds.length).count i := rfl
    rw [h3]
    exact List.count_eq_one_of_mem (List.nodup_range _)
      (List.mem_range.mpr hi)
  cases ha : aliveOk s.conn with
  | true =>
    have hc : effConn w s = s.conn := by simp [effConn, ha]
    rw [hc] at henum
    unfold LibvirtCollectorCollect
    rw [if_pos ha]
    unfold scrapeWithConn
    rw [henum]
    simpa using hfree
  | false =>
    cases hn : w.newConnect with
    | error e =>
      rcases hpath with h | h
      · rw [ha] at h; cases h
      · rw [hn] at h; simp [exceptOk] at h
    | ok c =>
      have hc : effConn w s = c := by simp [effConn, ha, hn]
      rw [hc] at henum
      unfold LibvirtCollectorCollect
      rw [if_neg (by simp [ha]), hn]
      unfold scrapeWithConn
      simp only
      rw [henum]
      simp only [List.countP_cons]
      simpa using hfree

theorem enumerated_handles_freed_once_witness :
    ((LibvirtCollectorCollect steadyWorld oneDomainState).events.countP
      (fun e => e == Event.freeDomain 0)) = 1 :=
  enumerated_handles_freed_once steadyWorld oneDomainState [betaDomain] 0
    (Or.inl (by decide)) rfl (by decide)
